import Mathlib

/-!
Shallow embedding of the Baseball-Player-Analytics-Pipeline repository
(`src/scripts/fetch_data.py` and `src/scripts/loading_RDS.py`): the schema
normalization performed on the CSV dataframe, the three pre-load validation
checks, and the append-based load into a store keyed by the composite
primary key (game_pk, at_bat_number, pitch_number).
-/

/-- A raw CSV cell as materialized by the dataframe reader: missing (NaN),
a number, or a string. -/
inductive RawValue
  | null : RawValue
  | num : Rat → RawValue
  | str : String → RawValue
deriving DecidableEq

/-- Numeric value of a digit character. -/
def digitVal (c : Char) : Nat := c.toNat - 48

/-- Reads a nonempty all-digit character list as a natural number. -/
def digitsToNat (l : List Char) : Option Nat :=
  if l.isEmpty then none
  else if l.all Char.isDigit then
    some (l.foldl (fun n c => 10 * n + digitVal c) 0)
  else none

/-- Strips leading and trailing spaces from a character list. -/
def stripSpaces (l : List Char) : List Char :=
  ((l.dropWhile (fun c => decide (c = ' '))).reverse.dropWhile
    (fun c => decide (c = ' '))).reverse

/-- Decimal-number grammar accepted by the numeric coercion: optional sign,
integer digits, optional fractional digits (models the float parsing used
by `pd.to_numeric`). -/
def parseRatString (s : String) : Option Rat :=
  let core : List Char → Option Rat := fun u =>
    match u.span (fun c => decide (c ≠ '.')) with
    | (ip, []) => (digitsToNat ip).map (fun n => ((n : Rat)))
    | (ip, _dot :: fp) =>
      match digitsToNat ip, digitsToNat fp with
      | some n, some f => some ((n : Rat) + (f : Rat) / ((10 : Rat) ^ fp.length))
      | _, _ => none
  match stripSpaces s.data with
  | '-' :: u => (core u).map (fun q => -q)
  | '+' :: u => core u
  | u => core u

/-- Numeric reading of a raw cell: numbers pass through, strings go through
the decimal grammar, missing values have no numeric reading. -/
def parseNumber : RawValue → Option Rat
  | RawValue.null => none
  | RawValue.num q => some q
  | RawValue.str s => parseRatString s

/-- The two error modes of `pd.to_numeric` that matter here. -/
inductive NumericErrors
  | raiseMode
  | coerceMode
deriving DecidableEq

/-- `pd.to_numeric(value, errors=mode)`: missing values stay missing (NaN in,
NaN out, in either mode), numbers pass through, parseable strings are read,
and an unparseable string raises in raise mode but becomes NaN (`none`) in
coerce mode. The source calls this with coerce mode (loading_RDS.py line 98). -/
def to_numeric (mode : NumericErrors) (v : RawValue) : Except String (Option Rat) :=
  match v with
  | RawValue.null => Except.ok none
  | RawValue.num q => Except.ok (some q)
  | RawValue.str s =>
    match parseRatString s with
    | some q => Except.ok (some q)
    | none =>
      match mode with
      | NumericErrors.raiseMode => Except.error (("Unable to parse string ") ++ s)
      | NumericErrors.coerceMode => Except.ok none

/-- A parsed date-time cell: NaT (from a missing value), an epoch number, or
a calendar date. -/
inductive DateValue
  | notATime
  | epoch (q : Rat)
  | ymd (y m d : Nat)
deriving DecidableEq

/-- Splits a character list at every occurrence of a separator. -/
def splitChar (sep : Char) : List Char → List (List Char)
  | [] => [[]]
  | c :: cs =>
    match splitChar sep cs with
    | [] => [[c]]
    | g :: gs =>
      if decide (c = sep) then [] :: g :: gs
      else (c :: g) :: gs

/-- Date grammar: a YYYY-MM-DD string with numeric parts in range. -/
def parseYmd (s : String) : Option (Nat × Nat × Nat) :=
  match splitChar ('-') s.data with
  | [ys, ms, ds] =>
    match digitsToNat ys, digitsToNat ms, digitsToNat ds with
    | some y, some m, some d =>
      if 1 ≤ m ∧ m ≤ 12 ∧ 1 ≤ d ∧ d ≤ 31 then some ((y, m, d)) else none
    | _, _, _ => none
  | _ => none

/-- `pd.to_datetime(value)` with its default raise-on-error behavior
(loading_RDS.py line 86): missing values become NaT, numbers are read as
epoch stamps, parseable date strings are structured, and an unparseable
string raises. -/
def to_datetime (v : RawValue) : Except String DateValue :=
  match v with
  | RawValue.null => Except.ok DateValue.notATime
  | RawValue.num q => Except.ok (DateValue.epoch q)
  | RawValue.str s =>
    match parseYmd s with
    | some t => Except.ok (DateValue.ymd t.1 t.2.1 t.2.2)
    | none => Except.error (("time data ") ++ s ++ (" does not match a supported format"))

/-- `Series.astype(pd.Int64Dtype())` (loading_RDS.py line 112): missing
values are kept as nulls, integral numbers are cast, and fractional numbers
or leftover strings raise. -/
def toInt64 (v : RawValue) : Except String (Option Int) :=
  match v with
  | RawValue.null => Except.ok none
  | RawValue.num q =>
    if q.den = 1 then Except.ok (some q.num)
    else Except.error ("cannot safely cast non-integer value")
  | RawValue.str _ => Except.error ("object cannot be converted to an IntegerDtype")

/-- The numeric measurement columns (loading_RDS.py lines 90-94). -/
def numeric_cols : List String :=
  [("release_speed"), ("release_pos_x"), ("release_pos_z"), ("pfx_x"), ("pfx_z"),
   ("plate_x"), ("plate_z"), ("effective_speed"), ("release_spin_rate"),
   ("release_extension"), ("spin_axis"), ("hit_distance_sc"), ("launch_speed"),
   ("launch_angle"), ("estimated_ba_using_speedangle"), ("woba_value"),
   ("estimated_woba_using_speedangle"), ("hc_x"), ("hc_y"), ("sz_top"), ("sz_bot")]

/-- The nullable-integer columns (loading_RDS.py lines 101-108). -/
def int_cols : List String :=
  [("balls"), ("strikes"), ("zone"), ("outs_when_up"), ("inning"),
   ("at_bat_number"), ("pitch_number"), ("game_pk"), ("batter"), ("pitcher"),
   ("on_1b"), ("on_2b"), ("on_3b"), ("hit_location"), ("woba_denom"),
   ("babip_value"), ("iso_value"), ("launch_speed_angle"),
   ("fielder_2"), ("fielder_3"), ("fielder_4"), ("fielder_5"),
   ("fielder_6"), ("fielder_7"), ("fielder_8"), ("fielder_9"),
   ("home_score"), ("away_score"), ("bat_score"), ("fld_score"),
   ("post_away_score"), ("post_home_score"), ("post_bat_score"), ("post_fld_score")]

/-- A typed column after normalization. -/
inductive NormColumn
  | floats (l : List (Option Rat))
  | ints (l : List (Option Int))
  | dates (l : List DateValue)
  | raw (l : List RawValue)
deriving DecidableEq

/-- Error-propagating map, the shape of applying a pandas conversion to a
whole column (a raised exception aborts the column). -/
def mapME {α β : Type} (f : α → Except String β) : List α → Except String (List β)
  | [] => Except.ok []
  | x :: xs =>
    match f x with
    | Except.error e => Except.error e
    | Except.ok y =>
      match mapME f xs with
      | Except.error e => Except.error e
      | Except.ok ys => Except.ok (y :: ys)

/-- Per-column normalization rule of loading_RDS.py lines 84-112: the
`game_date` column goes through `pd.to_datetime` (raise on error), the
declared numeric columns through `pd.to_numeric(errors='coerce')`, the
declared integer columns through `astype(Int64Dtype)`, and any other
column is left as read. -/
def normalizeColumn (name : String) (col : List RawValue) : Except String NormColumn :=
  if name = ("game_date") then
    match mapME to_datetime col with
    | Except.error e => Except.error e
    | Except.ok l => Except.ok (NormColumn.dates l)
  else if name ∈ numeric_cols then
    match mapME (to_numeric NumericErrors.coerceMode) col with
    | Except.error e => Except.error e
    | Except.ok l => Except.ok (NormColumn.floats l)
  else if name ∈ int_cols then
    match mapME toInt64 col with
    | Except.error e => Except.error e
    | Except.ok l => Except.ok (NormColumn.ints l)
  else Except.ok (NormColumn.raw col)

/-- One event row as seen by the validation checks: the composite primary
key (nullable after Int64 coercion) and the bounded-length description. -/
structure Row where
  game_pk : Option Int
  at_bat_number : Option Int
  pitch_number : Option Int
  description : Option String
deriving DecidableEq

/-- The dataframe reaching the validation checks. `hasDescription` records
whether a `description` column exists at all (check 3 indexes it
unconditionally, so its absence is observable). -/
structure DataFrame where
  hasDescription : Bool
  rows : List Row
deriving DecidableEq

/-- The composite primary key of a row (loading_RDS.py line 117). -/
def pkTriple (r : Row) : Option Int × Option Int × Option Int :=
  ((r.game_pk, r.at_bat_number, r.pitch_number))

/-- Row has a null in at least one primary-key column
(`df[pk_cols].isnull().any(axis=1)`). -/
def hasNullPk (r : Row) : Bool :=
  r.game_pk.isNone || r.at_bat_number.isNone || r.pitch_number.isNone

/-- Check 1 count: number of rows with a null in any primary-key column
(loading_RDS.py line 119). -/
def numNullPkRows (rows : List Row) : Nat := rows.countP hasNullPk

/-- Check 2 count: `df.duplicated(subset=pk_cols, keep=False).sum()` — every
row whose primary-key triple occurs at least twice in the row-set
(loading_RDS.py lines 132-133). -/
def numDuplicateRows (rows : List Row) : Nat :=
  rows.countP (fun r => decide (2 ≤ rows.countP (fun s => decide (pkTriple s = pkTriple r))))

/-- Length of `astype(str)` of a description cell; a missing value prints
as the 3-character string used by the dataframe library for NaN. -/
def descStrLen (r : Row) : Nat :=
  match r.description with
  | some s => s.length
  | none => 3

/-- `df['description'].astype(str).str.len().max()` (loading_RDS.py
line 150), with 0 for the empty frame. -/
def maxDescLen (rows : List Row) : Nat :=
  rows.foldr (fun r m => max (descStrLen r) m) 0

/-- The store-side bound on `description` (loading_RDS.py line 151). -/
def db_desc_limit : Nat := 100

/-- Observable result of the validation section: which check stopped the
run (checks 1 and 2 call `sys.exit(1)`, check 3 raises a KeyError when the
description column is absent, which the enclosing handler turns into
`sys.exit(1)`), or a pass with the check-3 warning flag. -/
inductive ValidationOutcome
  | exitNullPk (count : Nat)
  | exitDupPk (count : Nat)
  | errMissingDescription
  | passed (lengthWarning : Bool)
deriving DecidableEq

/-- The three validation checks in source order with their early exits
(loading_RDS.py lines 114-158). -/
def validateChecks (df : DataFrame) : ValidationOutcome :=
  if 0 < numNullPkRows df.rows then
    ValidationOutcome.exitNullPk (numNullPkRows df.rows)
  else if 0 < numDuplicateRows df.rows then
    ValidationOutcome.exitDupPk (numDuplicateRows df.rows)
  else if df.hasDescription then
    ValidationOutcome.passed (decide (db_desc_limit < maxDescLen df.rows))
  else ValidationOutcome.errMissingDescription

/-- The `ok` classification of a validation outcome: only a pass lets the
run proceed to the loader. -/
def validationOk : ValidationOutcome → Bool
  | ValidationOutcome.passed _ => true
  | _ => false

/-- Diagnostic delivered by check 1, if that check ran: its violation count
(0 when it ran and passed). -/
def diagNullCount : ValidationOutcome → Option Nat
  | ValidationOutcome.exitNullPk n => some n
  | _ => some 0

/-- Diagnostic delivered by check 2, if that check ran: `none` when the run
stopped before check 2. -/
def diagDupCount : ValidationOutcome → Option Nat
  | ValidationOutcome.exitNullPk _ => none
  | ValidationOutcome.exitDupPk n => some n
  | _ => some 0

/-- Diagnostic delivered by check 3, if that check ran to completion. -/
def diagLenWarning : ValidationOutcome → Option Bool
  | ValidationOutcome.passed w => some w
  | _ => none

/-- Outcome of the `df.to_sql` call. -/
inductive LoadOutcome
  | success (rowsLoaded : Nat)
  | integrityError
  | constraintError
deriving DecidableEq

/-- The external store and connection as the script sees them: whether the
connection test succeeds, whether a non-primary-key store constraint fires
during the insert, and the table contents. -/
structure DbEnv where
  connectOk : Bool
  constraintFault : Bool
  store : List Row
deriving DecidableEq

/-- Observable result of one run of the load script past the CSV read. -/
structure RunReport where
  exitCode : Option Nat
  engineCreated : Bool
  engineDisposed : Bool
  finalStore : List Row
  loadOutcome : Option LoadOutcome
deriving DecidableEq

/-- `df.to_sql(if_exists='append')` against the table's composite
primary-key constraint, all chunks in one transaction: if any incoming row
collides with a stored primary key the whole insert raises IntegrityError
and is rolled back; otherwise all rows are appended. -/
def to_sql_append (store batch : List Row) : List Row × LoadOutcome :=
  if batch.any (fun r => store.any (fun s => decide (pkTriple s = pkTriple r))) then
    ((store, LoadOutcome.integrityError))
  else ((store ++ batch, LoadOutcome.success batch.length))

/-- Control flow of loading_RDS.py lines 114-237 once the CSV is in memory:
validation (early `sys.exit(1)` on violation, before any engine exists),
engine creation and connection test (`sys.exit(1)` on failure, with no
disposal on that path), then the load inside try/except/finally — an
IntegrityError is only printed (the run still ends normally), any other
load error exits with 1, and the finally block disposes the engine on all
of those load-stage paths. -/
def runLoadStage (df : DataFrame) (env : DbEnv) : RunReport :=
  match validateChecks df with
  | ValidationOutcome.passed _ =>
    if env.connectOk then
      if env.constraintFault then
        { exitCode := some 1, engineCreated := true, engineDisposed := true,
          finalStore := env.store, loadOutcome := some LoadOutcome.constraintError }
      else
        match to_sql_append env.store df.rows with
        | (store1, out) =>
          { exitCode := none, engineCreated := true, engineDisposed := true,
            finalStore := store1, loadOutcome := some out }
    else
      { exitCode := some 1, engineCreated := true, engineDisposed := false,
        finalStore := env.store, loadOutcome := none }
  | _ =>
    { exitCode := some 1, engineCreated := false, engineDisposed := false,
      finalStore := env.store, loadOutcome := none }

/-- Finds a column by name in the normalized frame. -/
def lookupCol (nf : List (String × NormColumn)) (name : String) : Option NormColumn :=
  (nf.find? (fun p => decide (p.1 = name))).map (fun p => p.2)

/-- ASCII lowercase of a column name (`col.lower()` in
loading_RDS.py line 82). -/
def lowerAscii (s : String) : String :=
  String.mk (s.data.map (fun c =>
    if 65 ≤ c.toNat ∧ c.toNat ≤ 90 then Char.ofNat (c.toNat + 32) else c))

/-- `astype(str)`-style reading of a raw description cell. -/
def rawToStr : RawValue → Option String
  | RawValue.null => none
  | RawValue.str s => some s
  | RawValue.num q => some (toString q)

/-- Normalizes one named column, keeping the name. -/
def normEntry (p : String × List RawValue) : Except String (String × NormColumn) :=
  match normalizeColumn p.1 p.2 with
  | Except.error e => Except.error e
  | Except.ok c => Except.ok ((p.1, c))

/-- Lines 80-158 up to the typed view the validation checks consume:
lowercase the column names, normalize every column (any conversion error
aborts, caught by the handler at line 166), then index the three
primary-key columns (a missing one is a KeyError at line 118) and the
optional description column to form the row view. -/
def prepare (frame : List (String × List RawValue)) : Except String DataFrame :=
  match mapME normEntry (frame.map (fun p => ((lowerAscii p.1, p.2)))) with
  | Except.error e => Except.error e
  | Except.ok nf =>
    match lookupCol nf ("game_pk"), lookupCol nf ("at_bat_number"),
          lookupCol nf ("pitch_number") with
    | some (NormColumn.ints g), some (NormColumn.ints a), some (NormColumn.ints p) =>
      let n := g.length
      let descCol := lookupCol nf ("description")
      let descVals : List (Option String) :=
        match descCol with
        | some (NormColumn.raw l) => l.map rawToStr
        | _ => List.replicate n none
      Except.ok
        { hasDescription := descCol.isSome
          rows := (List.range n).map (fun i =>
            { game_pk := g.getD i none
              at_bat_number := a.getD i none
              pitch_number := p.getD i none
              description := descVals.getD i none }) }
    | _, _, _ => Except.error ("KeyError: missing primary key column")

/-- The whole load script on a raw CSV frame: prepare (normalize +
validate-view construction; any error there is caught and turns into
`sys.exit(1)` before any database work), then the load stage. -/
def runPipeline (frame : List (String × List RawValue)) (env : DbEnv) : RunReport :=
  match prepare frame with
  | Except.error _ =>
    { exitCode := some 1, engineCreated := false, engineDisposed := false,
      finalStore := env.store, loadOutcome := none }
  | Except.ok df => runLoadStage df env

/-- The canonical column list of the fetch stage
(fetch_data.py lines 23-40). -/
def COLUMNS_TO_KEEP : List String :=
  [("pitch_type"), ("game_date"), ("release_speed"), ("release_pos_x"), ("release_pos_z"),
   ("player_name"), ("batter"), ("pitcher"), ("events"), ("description"), ("zone"),
   ("des"), ("game_type"), ("stand"), ("p_throws"), ("home_team"), ("away_team"),
   ("type"), ("hit_location"), ("bb_type"), ("balls"), ("strikes"), ("game_year"),
   ("pfx_x"), ("pfx_z"), ("plate_x"), ("plate_z"), ("on_3b"), ("on_2b"), ("on_1b"),
   ("outs_when_up"), ("inning"), ("inning_topbot"), ("hc_x"), ("hc_y"),
   ("sv_id"), ("vx0"), ("vy0"), ("vz0"), ("ax"), ("ay"), ("az"),
   ("sz_top"), ("sz_bot"), ("hit_distance_sc"), ("launch_speed"), ("launch_angle"),
   ("effective_speed"), ("release_spin_rate"), ("release_extension"), ("game_pk"),
   ("fielder_2"), ("fielder_3"), ("fielder_4"), ("fielder_5"),
   ("fielder_6"), ("fielder_7"), ("fielder_8"), ("fielder_9"),
   ("estimated_ba_using_speedangle"), ("estimated_woba_using_speedangle"),
   ("woba_value"), ("woba_denom"), ("babip_value"), ("iso_value"),
   ("launch_speed_angle"), ("at_bat_number"), ("pitch_number"), ("pitch_name"),
   ("home_score"), ("away_score"), ("bat_score"), ("fld_score"), ("post_away_score"),
   ("post_home_score"), ("post_bat_score"), ("post_fld_score")]

/-- fetch_data.clean_and_select_columns over column names: the selected
column list (the dataframe restriction `df[existing_columns]`) and the
missing-column list that is logged as a warning (fetch_data.py
lines 76-83). -/
def clean_and_select_columns (dfCols keep : List String) : List String × List String :=
  ((keep.filter (fun c => decide (c ∈ dfCols)),
    keep.filter (fun c => decide (c ∉ dfCols))))

/-- If every element maps to a success described by `g`, the whole column
maps to the image list. -/
theorem mapME_ok_map {α β : Type} (f : α → Except String β) (g : α → β) :
    ∀ l : List α, (∀ x ∈ l, f x = Except.ok (g x)) → mapME f l = Except.ok (l.map g) := by
  intro l
  induction l with
  | nil => intro _; rfl
  | cons x xs ih =>
    intro h
    have hx := h x (List.mem_cons_self x xs)
    have hxs := ih (fun y hy => h y (List.mem_cons_of_mem x hy))
    simp only [mapME, hx, hxs, List.map_cons]

/-- If some element of the column raises, the whole column raises. -/
theorem mapME_error_of_mem {α β : Type} (f : α → Except String β) (x : α) (e : String) :
    ∀ l : List α, x ∈ l → f x = Except.error e →
      ∃ e2, mapME f l = Except.error e2 := by
  intro l
  induction l with
  | nil => intro h; exact absurd h (List.not_mem_nil x)
  | cons y ys ih =>
    intro hmem hfx
    rcases List.mem_cons.mp hmem with heq | htail
    · subst heq
      exact ⟨e, by simp only [mapME, hfx]⟩
    · cases hfy : f y with
      | error e1 => exact ⟨e1, by simp only [mapME, hfy]⟩
      | ok b =>
        obtain ⟨e2, he2⟩ := ih htail hfx
        exact ⟨e2, by simp only [mapME, hfy, he2]⟩

/-- C2 counterexample data: one row with a null primary key together with a
duplicated pair. -/
def dfC2x : DataFrame :=
  { hasDescription := true
    rows := [ { game_pk := none, at_bat_number := some 1, pitch_number := some 1,
                description := none },
              { game_pk := some 1, at_bat_number := some 1, pitch_number := some 1,
                description := none },
              { game_pk := some 1, at_bat_number := some 1, pitch_number := some 1,
                description := none } ] }

/-- Claim C2 counterexample: on a row-set with both a null primary key and a
duplicated primary key, the run stops at check 1, so the duplicate-PK and
string-length checks never run and their diagnostics are absent — the
caller does not receive the full set of diagnostics. -/
theorem c2_counterexample_early_exit_hides_diagnostics :
    0 < numDuplicateRows dfC2x.rows ∧
    diagDupCount (validateChecks dfC2x) = none ∧
    diagLenWarning (validateChecks dfC2x) = none := by decide

/-- Claim C2 (amended): the validator runs the checks in the fixed order
null-PK, duplicate-PK, string-length, but a violation halts the run at the
first failing check (`sys.exit(1)`), so later checks do not run; only when
checks 1 and 2 find no violation does check 3 run and the caller receive
all three diagnostics. -/
theorem c2_checks_halt_at_first_violation (df : DataFrame) :
    (0 < numNullPkRows df.rows →
      validateChecks df = ValidationOutcome.exitNullPk (numNullPkRows df.rows)) ∧
    (numNullPkRows df.rows = 0 → 0 < numDuplicateRows df.rows →
      validateChecks df = ValidationOutcome.exitDupPk (numDuplicateRows df.rows)) ∧
    (numNullPkRows df.rows = 0 → numDuplicateRows df.rows = 0 →
      df.hasDescription = true →
      validateChecks df =
        ValidationOutcome.passed (decide (db_desc_limit < maxDescLen df.rows)) ∧
      (diagNullCount (validateChecks df)).isSome = true ∧
      (diagDupCount (validateChecks df)).isSome = true ∧
      (diagLenWarning (validateChecks df)).isSome = true) := by
  refine ⟨fun h => ?_, fun h0 hd => ?_, fun h0 hd0 hdesc => ?_⟩
  · unfold validateChecks
    rw [if_pos h]
  · unfold validateChecks
    rw [if_neg (by omega), if_pos hd]
  · have hv : validateChecks df =
        ValidationOutcome.passed (decide (db_desc_limit < maxDescLen df.rows)) := by
      unfold validateChecks
      rw [if_neg (by omega), if_neg (by omega), if_pos hdesc]
    exact ⟨hv, by rw [hv]; rfl, by rw [hv]; rfl, by rw [hv]; rfl⟩

/-- Claim C2 witness: on the counterexample data the amended theorem applies
and yields the check-1 exit with its count. -/
theorem c2_witness_null_exit_first : validateChecks dfC2x = ValidationOutcome.exitNullPk 1 := by
  have h := (c2_checks_halt_at_first_violation dfC2x).1 (by decide)
  have h1 : numNullPkRows dfC2x.rows = 1 := by decide
  rw [h1] at h
  exact h

/-- C3 counterexample data: a duplicated pair together with a separate
null-PK row. -/
def dfC3x : DataFrame :=
  { hasDescription := true
    rows := [ { game_pk := none, at_bat_number := some 9, pitch_number := some 9,
                description := none },
              { game_pk := some 1, at_bat_number := some 1, pitch_number := some 1,
                description := some ("x") },
              { game_pk := some 1, at_bat_number := some 1, pitch_number := some 1,
                description := some ("y") } ] }

/-- Claim C3 counterexample: this row-set has two rows sharing one
primary-key triple (so the claim's premise holds and 2 rows participate in
a duplicate group), yet the run exits at the null-PK check and no duplicate
row count is reported at all, contradicting the claimed reported count. -/
theorem c3_counterexample_null_preempts_duplicate_report :
    2 ≤ dfC3x.rows.countP (fun s => decide (pkTriple s = ((some 1, some 1, some 1)))) ∧
    numDuplicateRows dfC3x.rows = 2 ∧
    diagDupCount (validateChecks dfC3x) = none := by decide

/-- Claim C3 (amended): for every row-set with no nulls in the primary-key
columns in which two or more rows share one primary-key triple, validate
stops with `ok = false` and the reported count is the number of ALL rows
participating in any duplicate group. -/
theorem c3_duplicate_pk_rejection (df : DataFrame)
    (hnull : numNullPkRows df.rows = 0)
    (hdup : ∃ t, 2 ≤ df.rows.countP (fun s => decide (pkTriple s = t))) :
    validateChecks df = ValidationOutcome.exitDupPk (numDuplicateRows df.rows) ∧
    validationOk (validateChecks df) = false ∧
    0 < numDuplicateRows df.rows := by
  obtain ⟨t, ht⟩ := hdup
  obtain ⟨r, hr, hp⟩ := List.countP_pos_iff.mp (show 0 < df.rows.countP
    (fun s => decide (pkTriple s = t)) by omega)
  have hrt : pkTriple r = t := of_decide_eq_true hp
  have hcount : 2 ≤ df.rows.countP (fun s => decide (pkTriple s = pkTriple r)) := by
    rw [hrt]; exact ht
  have hpos : 0 < numDuplicateRows df.rows := by
    unfold numDuplicateRows
    exact List.countP_pos_iff.mpr ⟨r, hr, decide_eq_true hcount⟩
  have hv : validateChecks df = ValidationOutcome.exitDupPk (numDuplicateRows df.rows) := by
    unfold validateChecks
    rw [if_neg (by omega), if_pos hpos]
  exact ⟨hv, by rw [hv]; rfl, hpos⟩

/-- C3 witness data: the spec's concrete scenario, two rows with the same
triple and different descriptions. -/
def dfC3w : DataFrame :=
  { hasDescription := true
    rows := [ { game_pk := some 1, at_bat_number := some 1, pitch_number := some 1,
                description := some ("x") },
              { game_pk := some 1, at_bat_number := some 1, pitch_number := some 1,
                description := some ("y") } ] }

/-- Claim C3 witness: on the two-row duplicate scenario the reported count
is 2 (all participants, not just the surplus row). -/
theorem c3_witness_all_participants_counted :
    validateChecks dfC3w = ValidationOutcome.exitDupPk 2 ∧
    validationOk (validateChecks dfC3w) = false := by
  have h := c3_duplicate_pk_rejection dfC3w (by decide)
    ⟨((some 1, some 1, some 1)), by decide⟩
  have h2 : numDuplicateRows dfC3w.rows = 2 := by decide
  rw [h2] at h
  exact ⟨h.1, h.2.1⟩

/-- Claim C4: for every row-set with at least one null primary-key value,
validate stops with `ok = false` and the reported count is exactly the
number of rows with a null in at least one primary-key column. -/
theorem c4_null_pk_violation_count (df : DataFrame)
    (h : 0 < numNullPkRows df.rows) :
    validateChecks df = ValidationOutcome.exitNullPk (numNullPkRows df.rows) ∧
    validationOk (validateChecks df) = false := by
  constructor
  · unfold validateChecks
    rw [if_pos h]
  · unfold validateChecks
    rw [if_pos h]
    rfl

/-- C4 witness data: one row with a null at-bat number among two rows. -/
def dfC4w : DataFrame :=
  { hasDescription := true
    rows := [ { game_pk := some 1, at_bat_number := none, pitch_number := some 1,
                description := none },
              { game_pk := some 2, at_bat_number := some 1, pitch_number := some 1,
                description := none } ] }

/-- Claim C4 witness: the null-PK exit reports exactly 1 on a two-row set
with one offending row. -/
theorem c4_witness_exact_count :
    validateChecks dfC4w = ValidationOutcome.exitNullPk 1 ∧
    validationOk (validateChecks dfC4w) = false := by
  have h := c4_null_pk_violation_count dfC4w (by decide)
  have h1 : numNullPkRows dfC4w.rows = 1 := by decide
  rw [h1] at h
  exact h

/-- C5 counterexample data: clean primary keys but no description column. -/
def dfC5x : DataFrame :=
  { hasDescription := false
    rows := [ { game_pk := some 1, at_bat_number := some 1, pitch_number := some 1,
                description := none } ] }

/-- Claim C5 counterexample: a row-set with no null and no duplicate
primary keys for which validate nevertheless does not return ok — the
unconditional `df['description']` access makes the run fail when the
column is absent. -/
theorem c5_counterexample_missing_description :
    numNullPkRows dfC5x.rows = 0 ∧ numDuplicateRows dfC5x.rows = 0 ∧
    validationOk (validateChecks dfC5x) = false := by decide

/-- Claim C5 (amended): for every row-set that has a description column and
no null or duplicate primary keys, validate returns ok; overlong
descriptions only set the warning flag of the pass outcome. -/
theorem c5_length_warning_not_blocking (df : DataFrame)
    (hdesc : df.hasDescription = true)
    (hnull : numNullPkRows df.rows = 0)
    (hdup : numDuplicateRows df.rows = 0) :
    validateChecks df =
      ValidationOutcome.passed (decide (db_desc_limit < maxDescLen df.rows)) ∧
    validationOk (validateChecks df) = true := by
  have hv : validateChecks df =
      ValidationOutcome.passed (decide (db_desc_limit < maxDescLen df.rows)) := by
    unfold validateChecks
    rw [if_neg (by omega), if_neg (by omega), if_pos hdesc]
  exact ⟨hv, by rw [hv]; rfl⟩

/-- C5 witness data: clean keys and a 150-character description. -/
def dfC5w : DataFrame :=
  { hasDescription := true
    rows := [ { game_pk := some 1, at_bat_number := some 1, pitch_number := some 1,
                description := some (String.mk (List.replicate 150 ('a'))) } ] }

set_option maxRecDepth 4000 in
/-- Claim C5 witness: with a 150-character description the outcome is a
pass with the warning flag set, and ok is true. -/
theorem c5_witness_overlong_description_passes :
    validateChecks dfC5w = ValidationOutcome.passed true ∧
    validationOk (validateChecks dfC5w) = true := by
  have h := c5_length_warning_not_blocking dfC5w (by decide) (by decide) (by decide)
  have hw : (decide (db_desc_limit < maxDescLen dfC5w.rows)) = true := by decide
  exact ⟨by rw [h.1, hw], h.2⟩

/-- C1 sample rows: the spec's concrete scenario, two distinct primary-key
triples. -/
def rC1a : Row :=
  { game_pk := some 1, at_bat_number := some 1, pitch_number := some 1,
    description := some ("x") }

/-- Second C1 sample row. -/
def rC1b : Row :=
  { game_pk := some 1, at_bat_number := some 1, pitch_number := some 2,
    description := some ("y") }

/-- C1 validated row-set. -/
def dfC1 : DataFrame := { hasDescription := true, rows := [rC1a, rC1b] }

/-- Claim C1 (code behavior at the failing input): the first load of the
validated two-row set succeeds; re-running the identical load against the
now populated store performs no per-row no-ops and produces no
rowsInserted/rowsConflicted counts — the whole append raises
IntegrityError and inserts nothing (the handler only prints it, so the run
still ends normally). Final store contents match a single load only
because the entire batch is rolled back. -/
theorem c1_second_load_aborts_whole_batch :
    runLoadStage dfC1 { connectOk := true, constraintFault := false, store := [] } =
      { exitCode := none, engineCreated := true, engineDisposed := true,
        finalStore := [rC1a, rC1b], loadOutcome := some (LoadOutcome.success 2) } ∧
    runLoadStage dfC1 { connectOk := true, constraintFault := false, store := [rC1a, rC1b] } =
      { exitCode := none, engineCreated := true, engineDisposed := true,
        finalStore := [rC1a, rC1b], loadOutcome := some LoadOutcome.integrityError } := by
  decide

/-- Claim C6: for every column declared numeric and every input column, the
normalization of that column succeeds (never raises) and equals the
pointwise nullable-float coercion, under which a value with no numeric
reading becomes null. -/
theorem c6_numeric_coercion_total (name : String) (col : List RawValue)
    (h : name ∈ numeric_cols) :
    normalizeColumn name col = Except.ok (NormColumn.floats (col.map parseNumber)) ∧
    ∀ s : String, parseRatString s = none → parseNumber (RawValue.str s) = none := by
  have hname : ¬ name = ("game_date") := by
    intro heq
    subst heq
    exact absurd h (by decide)
  have hok : ∀ v ∈ col,
      to_numeric NumericErrors.coerceMode v = Except.ok (parseNumber v) := by
    intro v _
    cases v with
    | null => rfl
    | num q => rfl
    | str s =>
      cases hp : parseRatString s <;>
        simp [to_numeric, parseNumber, hp]
  constructor
  · unfold normalizeColumn
    rw [if_neg hname, if_pos h,
      mapME_ok_map (to_numeric NumericErrors.coerceMode) parseNumber col hok]
  · intro s hs
    exact hs

/-- Claim C6 witness: an unparseable string in a declared numeric column
becomes null, while numbers and missing values pass through, and the
conversion returns rather than raising. -/
theorem c6_witness_unparseable_becomes_null :
    normalizeColumn ("release_speed") [RawValue.str ("abc"), RawValue.num 3, RawValue.null] =
      Except.ok (NormColumn.floats [none, some 3, none]) := by
  have h := c6_numeric_coercion_total ("release_speed")
    [RawValue.str ("abc"), RawValue.num 3, RawValue.null] (by decide)
  rw [h.1]
  rfl

/-- Claim C7: a game_date value that does not parse as a date-time fails
the whole normalization step — the run exits with code 1 before any engine
or connection exists and the store is untouched, so the loader is never
invoked. -/
theorem c7_unparseable_date_halts_run (frame : List (String × List RawValue))
    (env : DbEnv) (c : List RawValue) (v : RawValue)
    (hc : ((("game_date"), c)) ∈ frame.map (fun p => ((lowerAscii p.1, p.2))))
    (hv : v ∈ c) (hbad : ∃ e, to_datetime v = Except.error e) :
    runPipeline frame env =
      { exitCode := some 1, engineCreated := false, engineDisposed := false,
        finalStore := env.store, loadOutcome := none } := by
  obtain ⟨e0, he0⟩ := hbad
  obtain ⟨e1, he1⟩ := mapME_error_of_mem to_datetime v e0 c hv he0
  have hcol : normalizeColumn ("game_date") c = Except.error e1 := by
    unfold normalizeColumn
    rw [if_pos rfl, he1]
  have hentry : normEntry ((("game_date"), c)) = Except.error e1 := by
    simp only [normEntry, hcol]
  obtain ⟨e2, he2⟩ := mapME_error_of_mem normEntry ((("game_date"), c)) e1
    (frame.map (fun p => ((lowerAscii p.1, p.2)))) hc hentry
  have hprep : prepare frame = Except.error e2 := by
    unfold prepare
    rw [he2]
  unfold runPipeline
  rw [hprep]

/-- C7 witness frame: a single game_date column holding an unparseable
string. -/
def frameC7 : List (String × List RawValue) :=
  [((("game_date"), [RawValue.str ("not-a-date")]))]

/-- Claim C7 witness: the pipeline on the bad-date frame exits with code 1,
creates no engine, and leaves the store untouched. -/
theorem c7_witness_bad_date :
    runPipeline frameC7 { connectOk := true, constraintFault := false, store := [] } =
      { exitCode := some 1, engineCreated := false, engineDisposed := false,
        finalStore := [], loadOutcome := none } :=
  c7_unparseable_date_halts_run frameC7
    { connectOk := true, constraintFault := false, store := [] }
    [RawValue.str ("not-a-date")] (RawValue.str ("not-a-date"))
    (by decide) (by decide) ⟨_, rfl⟩

/-- C8 sample validated row-set. -/
def dfC8 : DataFrame :=
  { hasDescription := true
    rows := [ { game_pk := some 1, at_bat_number := some 1, pitch_number := some 1,
                description := some ("x") } ] }

/-- Claim C8 counterexample: when the connection test fails, the run exits
with the engine created but never disposed — the store handle is not
released on that exit path (the dispose-in-finally block is only reached
after a successful connection test). -/
theorem c8_counterexample_connection_failure_no_dispose :
    (runLoadStage dfC8 { connectOk := false, constraintFault := false, store := [] }).engineCreated = true ∧
    (runLoadStage dfC8 { connectOk := false, constraintFault := false, store := [] }).engineDisposed = false := by
  decide

/-- Claim C8 (amended): on every exit path of the load stage that passes
the connection test — success, integrity error on conflict, any other load
error — the finally block disposes the engine; only the connection-failure
exit skips disposal. -/
theorem c8_dispose_on_connected_paths (df : DataFrame) (env : DbEnv)
    (hconn : env.connectOk = true) :
    (runLoadStage df env).engineCreated = true →
    (runLoadStage df env).engineDisposed = true := by
  unfold runLoadStage
  cases hval : validateChecks df with
  | exitNullPk n => intro h; exact absurd h Bool.false_ne_true
  | exitDupPk n => intro h; exact absurd h Bool.false_ne_true
  | errMissingDescription => intro h; exact absurd h Bool.false_ne_true
  | passed w =>
    rw [if_pos hconn]
    by_cases hf : env.constraintFault = true
    · rw [if_pos hf]
      intro _
      rfl
    · rw [if_neg hf]
      cases hts : to_sql_append env.store df.rows with
      | mk store1 out =>
        intro _
        rfl

/-- Claim C8 witness: on a successful run the engine is disposed. -/
theorem c8_witness_success_path_disposes :
    (runLoadStage dfC8 { connectOk := true, constraintFault := false, store := [] }).engineDisposed = true :=
  c8_dispose_on_connected_paths dfC8
    { connectOk := true, constraintFault := false, store := [] } rfl (by decide)

/-- Claim C9: the selected column set of the fetch stage is exactly the
intersection of the canonical schema with the source's columns; the
missing-column list reported in the warning is exactly the canonical
columns absent from the source (and the function returns normally rather
than failing); an extra source column outside the schema appears in
neither list, i.e. it is dropped without any diagnostic. The load stage
applies no further column selection (loading_RDS.py lines 160-164 are
comments only), so this selected set is the loaded set. -/
theorem c9_loaded_columns_are_intersection (dfCols : List String) :
    (∀ c, c ∈ (clean_and_select_columns dfCols COLUMNS_TO_KEEP).1 ↔
      (c ∈ COLUMNS_TO_KEEP ∧ c ∈ dfCols)) ∧
    (∀ c, c ∈ (clean_and_select_columns dfCols COLUMNS_TO_KEEP).2 ↔
      (c ∈ COLUMNS_TO_KEEP ∧ c ∉ dfCols)) ∧
    (∀ c, c ∈ dfCols → c ∉ COLUMNS_TO_KEEP →
      (c ∉ (clean_and_select_columns dfCols COLUMNS_TO_KEEP).1 ∧
       c ∉ (clean_and_select_columns dfCols COLUMNS_TO_KEEP).2)) := by
  have h1 : ∀ c, c ∈ (clean_and_select_columns dfCols COLUMNS_TO_KEEP).1 ↔
      (c ∈ COLUMNS_TO_KEEP ∧ c ∈ dfCols) := by
    intro c
    simp [clean_and_select_columns, List.mem_filter]
  have h2 : ∀ c, c ∈ (clean_and_select_columns dfCols COLUMNS_TO_KEEP).2 ↔
      (c ∈ COLUMNS_TO_KEEP ∧ c ∉ dfCols) := by
    intro c
    simp [clean_and_select_columns, List.mem_filter]
  exact ⟨h1, h2, fun c hin hout =>
    ⟨fun hmem => hout ((h1 c).mp hmem).1, fun hmem => hout ((h2 c).mp hmem).1⟩⟩

/-- Claim C9 witness: a schema column present in the source is selected, an
extra source column is dropped, and an absent schema column lands in the
missing-column warning list. -/
theorem c9_witness_select_and_drop :
    ("pitch_type") ∈ (clean_and_select_columns [("pitch_type"), ("junk")] COLUMNS_TO_KEEP).1 ∧
    ("junk") ∉ (clean_and_select_columns [("pitch_type"), ("junk")] COLUMNS_TO_KEEP).1 ∧
    ("game_date") ∈ (clean_and_select_columns [("pitch_type"), ("junk")] COLUMNS_TO_KEEP).2 := by
  have h := c9_loaded_columns_are_intersection [("pitch_type"), ("junk")]
  refine ⟨(h.1 ("pitch_type")).mpr ⟨by decide, by decide⟩, ?_,
    (h.2.1 ("game_date")).mpr ⟨by decide, by decide⟩⟩
  intro hmem
  exact absurd ((h.1 ("junk")).mp hmem).1 (by decide)

/-- A pass outcome can only arise when the description column exists
(check 3 would otherwise have raised before producing it). -/
theorem validateChecks_passed_hasDescription (df : DataFrame) (w : Bool)
    (h : validateChecks df = ValidationOutcome.passed w) :
    df.hasDescription = true := by
  unfold validateChecks at h
  by_cases h1 : 0 < numNullPkRows df.rows
  · rw [if_pos h1] at h
    exact absurd h (by simp)
  · rw [if_neg h1] at h
    by_cases h2 : 0 < numDuplicateRows df.rows
    · rw [if_pos h2] at h
      exact absurd h (by simp)
    · rw [if_neg h2] at h
      by_cases h3 : df.hasDescription = true
      · exact h3
      · rw [if_neg h3] at h
        exact absurd h (by simp)

/-- Claim C10: for every input frame whose prepared view has no
description column, the run exits with code 1 before any database work —
no engine is created and the store is untouched — regardless of whether
the null-PK and duplicate-PK checks pass, because check 3 indexes the
description column unconditionally. -/
theorem c10_missing_description_halts_before_write
    (frame : List (String × List RawValue)) (env : DbEnv) (df : DataFrame)
    (hprep : prepare frame = Except.ok df)
    (hdesc : df.hasDescription = false) :
    runPipeline frame env =
      { exitCode := some 1, engineCreated := false, engineDisposed := false,
        finalStore := env.store, loadOutcome := none } := by
  have hnp : ∀ w, validateChecks df ≠ ValidationOutcome.passed w := by
    intro w hw
    rw [validateChecks_passed_hasDescription df w hw] at hdesc
    exact Bool.noConfusion hdesc
  have hstep : runPipeline frame env = runLoadStage df env := by
    unfold runPipeline
    rw [hprep]
  rw [hstep]
  unfold runLoadStage
  cases hval : validateChecks df with
  | passed w => exact absurd hval (hnp w)
  | exitNullPk n => rfl
  | exitDupPk n => rfl
  | errMissingDescription => rfl

/-- C10 witness frame: the three primary-key columns, clean and
duplicate-free, with no description column. -/
def frameC10 : List (String × List RawValue) :=
  [((("game_pk"), [RawValue.num 1])),
   ((("at_bat_number"), [RawValue.num 1])),
   ((("pitch_number"), [RawValue.num 1]))]

/-- C10 witness prepared view. -/
def dfC10 : DataFrame :=
  { hasDescription := false
    rows := [ { game_pk := some 1, at_bat_number := some 1, pitch_number := some 1,
                description := none } ] }

/-- Claim C10 witness: the description-less frame with passing PK checks
still exits with code 1 before any write. -/
theorem c10_witness_halt_without_description :
    runPipeline frameC10 { connectOk := true, constraintFault := false, store := [] } =
      { exitCode := some 1, engineCreated := false, engineDisposed := false,
        finalStore := [], loadOutcome := none } :=
  c10_missing_description_halts_before_write frameC10
    { connectOk := true, constraintFault := false, store := [] } dfC10 (by rfl) rfl
